import Mathlib

/-!
# Verification of the warbler web application against its specification

Shallow embedding of the flask-warbler application (`app.py` request
handlers over the relational data model of users, messages, follow-edges
and like-edges).  The request handlers are translated directly from
`app.py`.  The model layer (`models.py`) and the form layer (`forms.py`)
are not part of the sources; where a claim depends on them, the
corresponding definition is modelled from the specification and marked
`Modelled from the spec:` in its doc comment.
-/

namespace Warbler

/-- A row of the `users` table (`models.py` class `User`, fields per spec
section 3: unique id, unique username, unique email, stored salted
password hash, image url, header image url, optional bio, optional
location). -/
structure User where
  id : Nat
  username : String
  email : String
  password : String
  image_url : String
  header_image_url : String
  bio : Option String
  location : Option String
deriving Repr, DecidableEq

/-- A row of the `messages` table (`models.py` class `Message`: unique id,
text, server-assigned creation timestamp, owning user id).  The timestamp
is modelled as a `Nat` tick. -/
structure Message where
  id : Nat
  text : String
  timestamp : Nat
  user_id : Nat
deriving Repr, DecidableEq

/-- A row of the `follows` table (`models.py` class `Follows`); per spec
section 3 a Follow-edge is the pair (follower_id, followed_id) with
composite key. -/
structure Follows where
  follower_id : Nat
  followed_id : Nat
deriving Repr, DecidableEq

/-- A row of the `likes` table (`models.py` class `Like`); per spec
section 3 a Like-edge is the pair (user_id, message_id) with composite
key. -/
structure Like where
  user_id : Nat
  message_id : Nat
deriving Repr, DecidableEq

/-- The persistent data store: the four relations of spec section 3. -/
structure Store where
  users : List User
  messages : List Message
  follows : List Follows
  likes : List Like
deriving Repr, DecidableEq

/-- Modelled from the spec: the default profile-image sentinel
`DEFAULT_IMAGE` of `models.py` (spec section 3: "optional image URL
(default sentinel if unset)").  The exact URL text is irrelevant to every
claim. -/
def DEFAULT_IMAGE : String := "/static/images/default-pic.png"

/-- Modelled from the spec: the default header-image sentinel
`DEFAULT_HEADER` of `models.py`. -/
def DEFAULT_HEADER : String := "/static/images/warbler-hero.jpg"

/-- Modelled from the spec: the salted one-way password hash of
`models.py` (bcrypt).  Spec section 4.1: signup "hashes the plaintext
password with a salted one-way hash function before persisting".  The
hash is modelled as an injective tagged encoding; only the verify
relation below matters to the claims. -/
def genHash (password : String) : String := "bcrypt$" ++ password

/-- Modelled from the spec: the bcrypt check of a supplied password against
a stored hash (spec section 4.1: "verifies the supplied password against
the stored hash"). -/
def checkHash (stored password : String) : Bool := stored == genHash password

/-- Modelled from the spec: `User.authenticate` of `models.py` (spec
section 4.1): "looks up by exact username; verifies the supplied password
against the stored hash; returns the User on success, otherwise a
sentinel indicating failure (never raises for bad credentials)".  The
failure sentinel is `none`; the function is total, so it never raises. -/
def authenticate (users : List User) (username password : String) :
    Option User :=
  match users.find? (fun u => u.username == username) with
  | some u => if checkHash u.password password then some u else none
  | none => none

/-- Modelled from the spec: adding a Follow-edge through the ORM
relationship (`g.user.following.append` in `app.py`, backed by
`models.py`).  Spec section 4.3 calls the operation an "idempotent add
... of Follow-edge" and spec section 9 reframes the collection mutation
as the edge-repository operation `addFollowEdge`. -/
def addFollowEdge (edges : List Follows) (follower_id followed_id : Nat) :
    List Follows :=
  if edges.contains ⟨follower_id, followed_id⟩ then edges
  else edges ++ [⟨follower_id, followed_id⟩]

/-- Modelled from the spec: removing a Follow-edge through the ORM
relationship (`g.user.following.remove` in `app.py`); spec section 4.3:
"idempotent ... remove of Follow-edge", spec section 9:
`removeFollowEdge`. -/
def removeFollowEdge (edges : List Follows) (follower_id followed_id : Nat) :
    List Follows :=
  edges.filter
    (fun e => !(e.follower_id == follower_id && e.followed_id == followed_id))

/-- Modelled from the spec: adding a Like-edge through the ORM
relationship (`g.user.liked_messages.append` in `app.py`); spec section 9:
`addLikeEdge`. -/
def addLikeEdge (edges : List Like) (user_id message_id : Nat) :
    List Like :=
  if edges.contains ⟨user_id, message_id⟩ then edges
  else edges ++ [⟨user_id, message_id⟩]

/-- The ids of the users the given user follows: `models.py` relation
`User.following` read as `[following.id for following in g.user.following]`
in `homepage` of `app.py`; per spec section 3 a Follow-edge (follower_id,
followed_id) means follower follows followed. -/
def followingIds (db : Store) (uid : Nat) : List Nat :=
  (db.follows.filter (fun f => f.follower_id == uid)).map
    (fun f => f.followed_id)

/-- Lookup `User.query.get(i)`: row lookup by primary key. -/
def getUser (db : Store) (uid : Nat) : Option User :=
  db.users.find? (fun u => u.id == uid)

/-- Lookup part of `Message.query.get_or_404(i)`: row lookup by primary
key. -/
def getMessage (db : Store) (mid : Nat) : Option Message :=
  db.messages.find? (fun m => m.id == mid)

/-- The outcome of a request handler, by HTTP status class:
redirect = 302, render = 200, unauthorized = 401 (the `Unauthorized`
exception of `app.py`), notFound = 404 (`get_or_404` miss). -/
inductive Response where
  | redirect (path : String)
  | render (template : String)
  | unauthorized
  | notFound
deriving Repr, DecidableEq

/-- What a handler produces: the flashed messages, the HTTP response and
the data store after the request. -/
structure HandlerResult where
  flashes : List String
  response : Response
  store : Store
deriving Repr, DecidableEq

/-- Handler `add_follow` of `app.py` (POST `/users/follow/<follow_id>`): CSRF guard
first (`raise Unauthorized` on failure), then the anonymous-user
redirect, then `get_or_404` of the followed user, then append to the
`following` collection and commit, then redirect to the following list
of the follower.  `csrf_ok` is the outcome of
`CSRFProtectForm().validate_on_submit()` (`forms.py`, spec section 4.2);
`gUser` is `g.user`. -/
def add_follow (csrf_ok : Bool) (gUser : Option User) (db : Store)
    (follow_id : Nat) : HandlerResult :=
  if !csrf_ok then ⟨[], .unauthorized, db⟩
  else match gUser with
  | none => ⟨["Access unauthorized."], .redirect "/", db⟩
  | some u =>
    match getUser db follow_id with
    | none => ⟨[], .notFound, db⟩
    | some _ =>
      ⟨[], .redirect ("/users/" ++ toString u.id ++ "/following"),
        { db with follows := addFollowEdge db.follows u.id follow_id }⟩

/-- Handler `stop_following` of `app.py` (POST `/users/stop-following/<follow_id>`):
CSRF guard first, then the anonymous-user redirect, then removal of the
Follow-edge to `follow_id` from the `following` collection and commit,
then redirect to the following list of the follower. -/
def stop_following (csrf_ok : Bool) (gUser : Option User) (db : Store)
    (follow_id : Nat) : HandlerResult :=
  if !csrf_ok then ⟨[], .unauthorized, db⟩
  else match gUser with
  | none => ⟨["Access unauthorized."], .redirect "/", db⟩
  | some u =>
    ⟨[], .redirect ("/users/" ++ toString u.id ++ "/following"),
      { db with follows := removeFollowEdge db.follows u.id follow_id }⟩

/-- Handler `delete_user` of `app.py` (POST `/users/delete`): CSRF guard first, then
the anonymous-user redirect, then logout, delete of the user row, and
redirect to `/signup`. -/
def delete_user (csrf_ok : Bool) (gUser : Option User) (db : Store) :
    HandlerResult :=
  if !csrf_ok then ⟨[], .unauthorized, db⟩
  else match gUser with
  | none => ⟨["Access unauthorized."], .redirect "/", db⟩
  | some u =>
    ⟨[], .redirect "/signup",
      { db with users := db.users.filter (fun x => !(x.id == u.id)) }⟩

/-- Handler `logout` of `app.py` (POST `/logout`): CSRF guard first, then
`do_logout()` (removal of the current-user key of the session), a flash, and a
redirect home.  Returns the session value alongside the handler
result. -/
def logout (csrf_ok : Bool) (sess : Option Nat) (db : Store) :
    Option Nat × HandlerResult :=
  if !csrf_ok then (sess, ⟨[], .unauthorized, db⟩)
  else (none, ⟨["Successfully logged out!"], .redirect "/", db⟩)

/-- Handler `messages_destroy` of `app.py` (POST `/messages/<message_id>/delete`):
CSRF guard first, then the anonymous-user redirect, then `get_or_404` of
the message, then the ownership check (`raise Unauthorized` when the
field `user_id` of the message differs from `g.user.id`), then delete of the message
row and redirect to the page of the owner. -/
def messages_destroy (csrf_ok : Bool) (gUser : Option User) (db : Store)
    (message_id : Nat) : HandlerResult :=
  if !csrf_ok then ⟨[], .unauthorized, db⟩
  else match gUser with
  | none => ⟨["Access unauthorized."], .redirect "/", db⟩
  | some u =>
    match getMessage db message_id with
    | none => ⟨[], .notFound, db⟩
    | some m =>
      if m.user_id != u.id then ⟨[], .unauthorized, db⟩
      else
        ⟨[], .redirect ("/users/" ++ toString u.id),
          { db with
              messages := db.messages.filter (fun x => !(x.id == message_id)) }⟩

/-- Handler `like_message` of `app.py` (POST `/messages/like/<message_id>`): CSRF
guard first, then the anonymous-user redirect, then `get_or_404` of the
message, then the own-message rejection (flash and redirect to the CSRF
guard callback path `form.callback.data`), otherwise append of the
Like-edge and redirect to the callback path. -/
def like_message (csrf_ok : Bool) (callback : String) (gUser : Option User)
    (db : Store) (message_id : Nat) : HandlerResult :=
  if !csrf_ok then ⟨[], .unauthorized, db⟩
  else match gUser with
  | none => ⟨["Access unauthorized."], .redirect "/", db⟩
  | some u =>
    match getMessage db message_id with
    | none => ⟨[], .notFound, db⟩
    | some m =>
      if m.user_id == u.id then
        ⟨["You can\x27t like your own warbles!"], .redirect callback, db⟩
      else
        ⟨[], .redirect callback,
          { db with likes := addLikeEdge db.likes u.id message_id }⟩

/-- Handler `unlike_message` of `app.py` (POST `/messages/unlike/<message_id>`):
CSRF guard first, then the anonymous-user redirect, then
`Like.query.filter(user_id == g.user.id, message_id == message_id).delete()`
(bulk delete of the matching Like-edges, with no existence check and no
404), commit, and redirect to the callback path. -/
def unlike_message (csrf_ok : Bool) (callback : String) (gUser : Option User)
    (db : Store) (message_id : Nat) : HandlerResult :=
  if !csrf_ok then ⟨[], .unauthorized, db⟩
  else match gUser with
  | none => ⟨["Access unauthorized."], .redirect "/", db⟩
  | some u =>
    ⟨[], .redirect callback,
      { db with
          likes := db.likes.filter
            (fun l => !(l.user_id == u.id && l.message_id == message_id)) }⟩

/-- A fresh primary-key value for a new user row. -/
def nextUserId (db : Store) : Nat :=
  (db.users.map (fun u => u.id)).foldr max 0 + 1

/-- Modelled from the spec: `User.signup` followed by `db.session.commit()`
(`models.py` is not among the sources).  Spec section 4.1: signup hashes
the password and returns a pending User; the commit "fails with
`UniquenessViolation` when username or email already exists" and then "no
second row is persisted" (spec section 8, confirmed by
`test_signup_fails_uniqueness`).  `none` models the raised
`IntegrityError`; on success the committed store and the new row are
returned. -/
def signup_commit (db : Store) (username email password : String)
    (image_url : Option String) : Option (Store × User) :=
  if db.users.any (fun u => u.username == username || u.email == email) then
    none
  else
    let u : User :=
      ⟨nextUserId db, username, email, genHash password,
        image_url.getD DEFAULT_IMAGE, DEFAULT_HEADER, none, none⟩
    some ({ db with users := db.users ++ [u] }, u)

/-- Handler `signup` of `app.py` (POST `/signup`) in the submitted-form case:
`User.signup` + commit inside `try`; on `IntegrityError` flash
"Username already taken" and re-render the signup form (HTTP 200); on
success `do_login(user)` (store the new id in the session) and redirect
home.  `form_valid` is `form.validate_on_submit()`; the session value is
returned alongside the handler result. -/
def signup (form_valid : Bool) (username email password : String)
    (image_url : Option String) (sess : Option Nat) (db : Store) :
    Option Nat × HandlerResult :=
  if form_valid then
    match signup_commit db username email password image_url with
    | none => (sess, ⟨["Username already taken"], .render "users/signup.html", db⟩)
    | some (db2, u) => (some u.id, ⟨[], .redirect "/", db2⟩)
  else (sess, ⟨[], .render "users/signup.html", db⟩)

/-- The fields of `UserEditForm` (`forms.py`) as submitted to the
edit-profile handler. -/
structure UserEditFormData where
  username : String
  email : String
  image_url : String
  header_image_url : String
  bio : String
  password : String
deriving Repr, DecidableEq

/-- The field assignments `app.py` `profile` performs on the user row on
a successful edit: username, email, image_url (default sentinel when the
submitted field is blank), header_image_url (default sentinel when
blank) and bio.  The id, password hash and location columns are not
assigned. -/
def applyEdit (form : UserEditFormData) (u : User) : User :=
  { u with
      username := form.username
      email := form.email
      image_url :=
        if form.image_url != "" then form.image_url else DEFAULT_IMAGE
      header_image_url :=
        if form.header_image_url != "" then form.header_image_url
        else DEFAULT_HEADER
      bio := some form.bio }

/-- Handler `profile` of `app.py` (POST `/users/profile`) in the submitted-form case:
`raise Unauthorized` when not logged in; re-verify the password with
`User.authenticate(user.username, form.password.data)` — against the
pre-edit username — flashing "Incorrect password." and redirecting home
without saving on failure; otherwise apply the edit to the user row,
commit, and redirect to the page of the user. -/
def profile (form_valid : Bool) (form : UserEditFormData)
    (gUser : Option User) (db : Store) : HandlerResult :=
  match gUser with
  | none => ⟨[], .unauthorized, db⟩
  | some u =>
    if form_valid then
      match authenticate db.users u.username form.password with
      | none => ⟨["Incorrect password."], .redirect "/", db⟩
      | some _ =>
        ⟨[], .redirect ("/users/" ++ toString u.id),
          { db with
              users := db.users.map
                (fun x => if x.id == u.id then applyEdit form u else x) }⟩
    else ⟨[], .render "users/edit.html", db⟩

/-- The ordering used by the homepage query:
`order_by(Message.timestamp.desc())`. -/
def tsDesc (a b : Message) : Prop := b.timestamp ≤ a.timestamp

instance : DecidableRel tsDesc := fun a b => Nat.decLe b.timestamp a.timestamp

instance : IsTotal Message tsDesc :=
  ⟨fun a b => Nat.le_total b.timestamp a.timestamp⟩

instance : IsTrans Message tsDesc :=
  ⟨fun _ _ _ h1 h2 => Nat.le_trans h2 h1⟩

/-- The filter of the homepage query (`app.py` `homepage`):
`Message.user_id == g.user.id` OR
`Message.user_id.in_([following.id for following in g.user.following])`. -/
def feedEligible (db : Store) (uid : Nat) : List Message :=
  db.messages.filter
    (fun m => m.user_id == uid || (followingIds db uid).contains m.user_id)

/-- Feed query of `homepage` in `app.py` for an authenticated user with id
`uid`: filter own-or-followed messages, order by timestamp descending,
limit 100. -/
def homepage_messages (db : Store) (uid : Nat) : List Message :=
  ((feedEligible db uid).insertionSort tsDesc).take 100

/-! ## Concrete sample data (mirroring the fixtures of the test suite) -/

/-- First sample user, as in `test_user_model.py` `setUp`. -/
def sampleUser1 : User :=
  ⟨1, "user1", "foo1@bar.com", genHash "FeL7f23#1",
    DEFAULT_IMAGE, DEFAULT_HEADER, none, none⟩

/-- Second sample user, as in `test_user_model.py` `setUp`. -/
def sampleUser2 : User :=
  ⟨2, "user2", "foo2@bar.com", genHash "FeL7f23#1",
    DEFAULT_IMAGE, DEFAULT_HEADER, none, none⟩

/-- A message owned by `sampleUser1`, as in `test_message_views.py`. -/
def sampleMessage1 : Message := ⟨1, "Hello World!", 5, 1⟩

/-- A message owned by `sampleUser2`. -/
def sampleMessage2 : Message := ⟨2, "new message", 7, 2⟩

/-- A sample store: two users, one message each, user 1 follows user 2,
user 2 likes message 1. -/
def sampleStore : Store :=
  ⟨[sampleUser1, sampleUser2], [sampleMessage1, sampleMessage2],
    [⟨1, 2⟩], [⟨2, 1⟩]⟩

/-! ## Claims -/

/-- C3: for every state-mutating endpoint (follow, unfollow, delete
message, delete user, like, unlike, logout), a request whose CSRF-guard
form submission is invalid, missing, or mismatched (modelled as
`validate_on_submit()` returning false) results in an Unauthorized
(HTTP 401) outcome and not a redirect, regardless of the endpoint. -/
theorem csrf_failure_unauthorized (sess : Option Nat) (gUser : Option User)
    (db : Store) (cb : String) (fid mid : Nat) :
    (add_follow false gUser db fid).response = Response.unauthorized ∧
    (stop_following false gUser db fid).response = Response.unauthorized ∧
    (messages_destroy false gUser db mid).response = Response.unauthorized ∧
    (delete_user false gUser db).response = Response.unauthorized ∧
    (like_message false cb gUser db mid).response = Response.unauthorized ∧
    (unlike_message false cb gUser db mid).response = Response.unauthorized ∧
    (logout false sess db).2.response = Response.unauthorized ∧
    (∀ p, Response.unauthorized ≠ Response.redirect p) := by
  refine ⟨rfl, rfl, rfl, rfl, rfl, rfl, rfl, fun p h => Response.noConfusion h⟩

/-- C8: for every state-mutating endpoint, a request whose CSRF-guard
form fails validation never mutates the data store: the handler returns
Unauthorized before the current-user check and before any store
operation, so for every value of `g.user` — including `none`, the
anonymous request — the result is exactly a 401 with no flash and the
store (and, for logout, the session) unchanged. -/
theorem csrf_failure_no_mutation (sess : Option Nat) (gUser : Option User)
    (db : Store) (cb : String) (fid mid : Nat) :
    add_follow false gUser db fid = ⟨[], Response.unauthorized, db⟩ ∧
    stop_following false gUser db fid = ⟨[], Response.unauthorized, db⟩ ∧
    messages_destroy false gUser db mid = ⟨[], Response.unauthorized, db⟩ ∧
    delete_user false gUser db = ⟨[], Response.unauthorized, db⟩ ∧
    like_message false cb gUser db mid = ⟨[], Response.unauthorized, db⟩ ∧
    unlike_message false cb gUser db mid = ⟨[], Response.unauthorized, db⟩ ∧
    logout false sess db = (sess, ⟨[], Response.unauthorized, db⟩) ∧
    add_follow false none db fid = ⟨[], Response.unauthorized, db⟩ :=
  ⟨rfl, rfl, rfl, rfl, rfl, rfl, rfl, rfl⟩

/-- Adding the same Follow-edge a second time leaves the edge set
unchanged. -/
theorem addFollowEdge_idem (E : List Follows) (a b : Nat) :
    addFollowEdge (addFollowEdge E a b) a b = addFollowEdge E a b := by
  unfold addFollowEdge
  by_cases h : (⟨a, b⟩ : Follows) ∈ E <;> simp [h]

/-- Removing the same Follow-edge a second time leaves the edge set
unchanged. -/
theorem removeFollowEdge_idem (E : List Follows) (a b : Nat) :
    removeFollowEdge (removeFollowEdge E a b) a b = removeFollowEdge E a b := by
  unfold removeFollowEdge
  rw [List.filter_filter]
  simp

/-- C2: for an authenticated user `u` and an existing user with id `fid`,
follow and unfollow (with valid CSRF) succeed with a redirect to the following list of `u`, and both are idempotent: running the handler a second
time on the store it produced gives the same result (same flashes,
response and Follow-edge set) as running it once. -/
theorem follow_unfollow_idempotent (u : User) (db : Store) (fid : Nat)
    (hv : (getUser db fid).isSome = true) :
    (add_follow true (some u) db fid).response =
      Response.redirect ("/users/" ++ toString u.id ++ "/following") ∧
    (stop_following true (some u) db fid).response =
      Response.redirect ("/users/" ++ toString u.id ++ "/following") ∧
    add_follow true (some u) (add_follow true (some u) db fid).store fid =
      add_follow true (some u) db fid ∧
    stop_following true (some u)
        (stop_following true (some u) db fid).store fid =
      stop_following true (some u) db fid := by
  obtain ⟨v, hv⟩ := Option.isSome_iff_exists.mp hv
  have hv2 : getUser { db with
      follows := addFollowEdge db.follows u.id fid } fid = some v := hv
  refine ⟨?_, rfl, ?_, ?_⟩
  · simp [add_follow, hv]
  · simp [add_follow, hv, hv2, addFollowEdge_idem]
  · simp [stop_following, removeFollowEdge_idem]

/-- Witness for C2 at concrete inputs: user 1 following user 2 in the
sample store. -/
theorem follow_unfollow_idempotent_witness :
    add_follow true (some sampleUser1)
        (add_follow true (some sampleUser1) sampleStore 2).store 2 =
      add_follow true (some sampleUser1) sampleStore 2 :=
  (follow_unfollow_idempotent sampleUser1 sampleStore 2 (by decide)).2.2.1

/-- C5: for an authenticated user `u` and message id `mid`, the
delete-message endpoint with valid CSRF returns 404 (store unchanged)
when no message with id `mid` exists; returns Unauthorized 401 with the
store exactly unchanged when the message exists but `u` does not own it;
and deletes the message (it is removed from the store, and no message
with that id remains) exactly when `u` owns it. -/
theorem messages_destroy_spec (u : User) (db : Store) (mid : Nat) :
    (getMessage db mid = none →
      messages_destroy true (some u) db mid = ⟨[], Response.notFound, db⟩) ∧
    (∀ m, getMessage db mid = some m → m.user_id ≠ u.id →
      messages_destroy true (some u) db mid =
        ⟨[], Response.unauthorized, db⟩) ∧
    (∀ m, getMessage db mid = some m → m.user_id = u.id →
      messages_destroy true (some u) db mid =
        ⟨[], Response.redirect ("/users/" ++ toString u.id),
          { db with
              messages := db.messages.filter (fun x => !(x.id == mid)) }⟩ ∧
      ∀ x ∈ (messages_destroy true (some u) db mid).store.messages,
        x.id ≠ mid) := by
  refine ⟨fun h => by simp [messages_destroy, h],
    fun m hm hne => by simp [messages_destroy, hm, hne], fun m hm he => ?_⟩
  have hres : messages_destroy true (some u) db mid =
      ⟨[], Response.redirect ("/users/" ++ toString u.id),
        { db with
            messages := db.messages.filter (fun x => !(x.id == mid)) }⟩ := by
    simp [messages_destroy, hm, he]
  refine ⟨hres, ?_⟩
  rw [hres]
  intro x hx
  have := (List.mem_filter.mp hx).2
  simpa using this

/-- Witness for C5 at concrete inputs: user 2 deleting the message of user 1
is refused with a 401 and the sample store is unchanged. -/
theorem messages_destroy_spec_witness :
    messages_destroy true (some sampleUser2) sampleStore 1 =
      ⟨[], Response.unauthorized, sampleStore⟩ :=
  (messages_destroy_spec sampleUser2 sampleStore 1).2.1 sampleMessage1
    (by decide) (by decide)

/-- C7: for an authenticated user `u` and a message `m` owned by `u`, the
like endpoint with valid CSRF rejects the request with the flash
the own-warble flash text and a redirect (HTTP 302) to the CSRF
guard recorded callback path — not an error status — and the store is
unchanged, so no Like-edge is created. -/
theorem like_own_message_rejected (u : User) (db : Store) (cb : String)
    (mid : Nat) (m : Message) (hm : getMessage db mid = some m)
    (hown : m.user_id = u.id) :
    like_message true cb (some u) db mid =
      ⟨["You can\x27t like your own warbles!"], Response.redirect cb, db⟩ := by
  simp [like_message, hm, hown]

/-- Witness for C7 at concrete inputs: user 1 liking their own message 1
in the sample store. -/
theorem like_own_message_rejected_witness :
    like_message true "/" (some sampleUser1) sampleStore 1 =
      ⟨["You can\x27t like your own warbles!"], Response.redirect "/",
        sampleStore⟩ :=
  like_own_message_rejected sampleUser1 sampleStore "/" 1 sampleMessage1
    (by decide) (by decide)

/-- C9: for an authenticated user `u` and any message id `mid` —
including ids with no corresponding message and messages `u` never
liked — the unlike endpoint with valid CSRF succeeds with a redirect to
the recorded callback path and never returns 404; it removes exactly the
Like-edge (u, mid) when present, leaves users, messages and follows
untouched, and when the edge is absent the whole store is unchanged. -/
theorem unlike_message_spec (u : User) (db : Store) (cb : String)
    (mid : Nat) :
    (unlike_message true cb (some u) db mid).response =
      Response.redirect cb ∧
    (unlike_message true cb (some u) db mid).store.users = db.users ∧
    (unlike_message true cb (some u) db mid).store.messages = db.messages ∧
    (unlike_message true cb (some u) db mid).store.follows = db.follows ∧
    (∀ l : Like, l ∈ (unlike_message true cb (some u) db mid).store.likes ↔
      l ∈ db.likes ∧ ¬(l.user_id = u.id ∧ l.message_id = mid)) ∧
    ((⟨u.id, mid⟩ : Like) ∉ db.likes →
      unlike_message true cb (some u) db mid =
        ⟨[], Response.redirect cb, db⟩) := by
  refine ⟨rfl, rfl, rfl, rfl, fun l => ?_, fun h => ?_⟩
  · show l ∈ db.likes.filter
        (fun l => !(l.user_id == u.id && l.message_id == mid)) ↔ _
    rw [List.mem_filter]
    simp only [Bool.not_eq_true', Bool.and_eq_false_iff, beq_eq_false_iff_ne,
      ne_eq, not_and]
    tauto
  · have hfix : db.likes.filter
        (fun l => !(l.user_id == u.id && l.message_id == mid)) = db.likes := by
      apply List.filter_eq_self.mpr
      intro l hl
      by_cases h1 : l.user_id = u.id
      · by_cases h2 : l.message_id = mid
        · exfalso
          apply h
          have : l = (⟨u.id, mid⟩ : Like) := by
            cases l
            simp_all
          exact this ▸ hl
        · simp [h1, h2]
      · simp [h1]
    show (⟨[], Response.redirect cb,
        { db with
            likes := db.likes.filter
              (fun l => !(l.user_id == u.id && l.message_id == mid)) }⟩ :
      HandlerResult) = _
    rw [hfix]

/-- Witness for C9 at concrete inputs: user 1 unliking message 2 (an edge
that does not exist) leaves the sample store unchanged and redirects. -/
theorem unlike_message_spec_witness :
    unlike_message true "/" (some sampleUser1) sampleStore 2 =
      ⟨[], Response.redirect "/", sampleStore⟩ :=
  (unlike_message_spec sampleUser1 sampleStore "/" 2).2.2.2.2.2 (by decide)

/-- C4: when the username or email of a signup equals that of an
already-persisted user, the commit fails with a uniqueness violation
(`signup_commit` returns the failure `none`), no second user row is
persisted (the store is unchanged), and the signup handler catches the
failure and responds with the flash "Username already taken" and a
re-rendered signup form (HTTP 200) without logging the requester in (the
session is unchanged). -/
theorem signup_duplicate_rejected (db : Store) (un em pw : String)
    (img : Option String) (sess : Option Nat)
    (hdup : ∃ v ∈ db.users, v.username = un ∨ v.email = em) :
    signup_commit db un em pw img = none ∧
    signup true un em pw img sess db =
      (sess, ⟨["Username already taken"],
        Response.render "users/signup.html", db⟩) := by
  have hany : db.users.any (fun u => u.username == un || u.email == em)
      = true := by
    obtain ⟨v, hv, hc⟩ := hdup
    rw [List.any_eq_true]
    exact ⟨v, hv, by cases hc <;> simp [*]⟩
  have hc : signup_commit db un em pw img = none := by
    simp [signup_commit, hany]
  exact ⟨hc, by simp [signup, hc]⟩

/-- Witness for C4 at concrete inputs: signing up with the taken username
"user1" against the sample store. -/
theorem signup_duplicate_rejected_witness :
    signup true "user1" "new@mail.com" "123123" none none sampleStore =
      (none, ⟨["Username already taken"],
        Response.render "users/signup.html", sampleStore⟩) :=
  (signup_duplicate_rejected sampleStore "user1" "new@mail.com" "123123"
    none none ⟨sampleUser1, by decide, Or.inl (by decide)⟩).2

/-- C6: under the store invariant that usernames are unique,
`authenticate` returns `some u` exactly when `u` is the stored user whose
username matches exactly and whose stored salted hash verifies the
supplied password; for any non-matching username or non-verifying
password it returns the failure sentinel `none`.  It is a total
function, so it never raises. -/
theorem authenticate_spec (users : List User) (un pw : String)
    (hnd : (users.map User.username).Nodup) :
    (∀ u : User, authenticate users un pw = some u ↔
      u ∈ users ∧ u.username = un ∧ checkHash u.password pw = true) ∧
    (authenticate users un pw = none ↔
      ∀ u ∈ users, u.username = un → checkHash u.password pw = false) := by
  induction users with
  | nil => simp [authenticate]
  | cons x xs ih =>
    have hnd2 : (xs.map User.username).Nodup :=
      (List.nodup_cons.mp (by simpa using hnd)).2
    have hx : x.username ∉ xs.map User.username :=
      (List.nodup_cons.mp (by simpa using hnd)).1
    obtain ⟨ih1, ih2⟩ := ih hnd2
    by_cases hu : x.username = un
    · have hfind : (x :: xs).find? (fun u => u.username == un) = some x :=
        List.find?_cons_of_pos _ (by simp [hu])
      by_cases hch : checkHash x.password pw = true
      · have ha : authenticate (x :: xs) un pw = some x := by
          simp [authenticate, hfind, hch]
        constructor
        · intro u
          rw [ha]
          constructor
          · intro h
            injection h with h
            subst h
            exact ⟨List.mem_cons_self x xs, hu, hch⟩
          · rintro ⟨hmem, hun, hch2⟩
            rcases List.mem_cons.mp hmem with rfl | hmem2
            · rfl
            · exact absurd
                (List.mem_map.mpr ⟨u, hmem2, hun.trans hu.symm⟩) hx
        · rw [ha]
          constructor
          · intro h
            exact absurd h (by simp)
          · intro h
            have hfalse := h x (List.mem_cons_self x xs) hu
            rw [hch] at hfalse
            exact absurd hfalse (by simp)
      · have ha : authenticate (x :: xs) un pw = none := by
          simp [authenticate, hfind, hch]
        constructor
        · intro u
          rw [ha]
          constructor
          · intro h
            exact absurd h (by simp)
          · rintro ⟨hmem, hun, hch2⟩
            exfalso
            rcases List.mem_cons.mp hmem with rfl | hmem2
            · exact hch hch2
            · exact hx (List.mem_map.mpr ⟨u, hmem2, hun.trans hu.symm⟩)
        · rw [ha]
          refine ⟨fun _ u hmem hun => ?_, fun _ => rfl⟩
          rcases List.mem_cons.mp hmem with rfl | hmem2
          · exact Bool.eq_false_iff.mpr hch
          · exact absurd (List.mem_map.mpr ⟨u, hmem2, hun.trans hu.symm⟩) hx
    · have hfind : authenticate (x :: xs) un pw = authenticate xs un pw := by
        unfold authenticate
        rw [List.find?_cons_of_neg]
        simp [hu]
      constructor
      · intro u
        rw [hfind, ih1 u]
        constructor
        · rintro ⟨hmem, hrest⟩
          exact ⟨List.mem_cons_of_mem x hmem, hrest⟩
        · rintro ⟨hmem, hun, hch⟩
          rcases List.mem_cons.mp hmem with rfl | hmem2
          · exact absurd hun hu
          · exact ⟨hmem2, hun, hch⟩
      · rw [hfind, ih2]
        constructor
        · intro h u hmem hun
          rcases List.mem_cons.mp hmem with rfl | hmem2
          · exact absurd hun hu
          · exact h u hmem2 hun
        · intro h u hmem hun
          exact h u (List.mem_cons_of_mem x hmem) hun

/-- Witness for C6 at concrete inputs: the right password authenticates
user 1, a wrong password hits the failure sentinel. -/
theorem authenticate_spec_witness :
    authenticate [sampleUser1, sampleUser2] "user1" "FeL7f23#1" =
      some sampleUser1 ∧
    authenticate [sampleUser1, sampleUser2] "user1" "invalid password" =
      none := by
  constructor
  · exact ((authenticate_spec [sampleUser1, sampleUser2] "user1" "FeL7f23#1"
      (by decide)).1 sampleUser1).mpr ⟨by decide, by decide, by decide⟩
  · exact (authenticate_spec [sampleUser1, sampleUser2] "user1"
      "invalid password" (by decide)).2.mpr (by decide)

/-- C1: for an authenticated user `u`, the homepage feed query returns
only messages from the store whose owning user is `u` or is in the following set of `u` (so no message by a non-followed other user appears), in
creation-timestamp-descending order, truncated to at most 100 messages
(length = min 100 (number of eligible messages)); and, whenever at most
100 messages are eligible, every eligible message appears. -/
theorem homepage_feed_spec (db : Store) (u : User) :
    (∀ m ∈ homepage_messages db u.id,
      m ∈ db.messages ∧
        (m.user_id = u.id ∨ m.user_id ∈ followingIds db u.id)) ∧
    List.Sorted tsDesc (homepage_messages db u.id) ∧
    (homepage_messages db u.id).length =
      min 100 (feedEligible db u.id).length ∧
    ((feedEligible db u.id).length ≤ 100 →
      ∀ m ∈ db.messages,
        (m.user_id = u.id ∨ m.user_id ∈ followingIds db u.id) →
        m ∈ homepage_messages db u.id) := by
  refine ⟨?_, ?_, ?_, ?_⟩
  · intro m hm
    have hm2 : m ∈ (feedEligible db u.id).insertionSort tsDesc :=
      (List.take_sublist 100 _).subset hm
    rw [List.mem_insertionSort] at hm2
    obtain ⟨hmem, hcond⟩ := List.mem_filter.mp hm2
    exact ⟨hmem, by simpa using hcond⟩
  · exact (List.sorted_insertionSort tsDesc (feedEligible db u.id)).sublist
      (List.take_sublist 100 _)
  · unfold homepage_messages
    rw [List.length_take, List.length_insertionSort]
  · intro hlen m hm hcond
    unfold homepage_messages
    rw [List.take_of_length_le (by rw [List.length_insertionSort]; exact hlen)]
    rw [List.mem_insertionSort]
    unfold feedEligible
    rw [List.mem_filter]
    exact ⟨hm, by simpa using hcond⟩

/-- Witness for C1 at concrete inputs: in the sample store user 1 follows
user 2, so the message of user 2 is in the feed of user 1. -/
theorem homepage_feed_spec_witness :
    sampleMessage2 ∈ homepage_messages sampleStore sampleUser1.id :=
  (homepage_feed_spec sampleStore sampleUser1).2.2.2 (by decide)
    sampleMessage2 (by decide) (by decide)

/-- C10: the edit-profile operation re-verifies the password against the
pre-edit username of the user (the `authenticate` call below takes
`u.username`, never `form.username`); on verification failure nothing is
saved; when it commits it modifies only these fields of the current user: username,
email, image_url, header_image_url and bio fields — the stored password
hash and the location field of that user are unchanged, and every other
row of the store (other users, messages, follows, likes) is
unchanged. -/
theorem profile_frame (db : Store) (u : User) (form : UserEditFormData) :
    (authenticate db.users u.username form.password = none →
      profile true form (some u) db =
        ⟨["Incorrect password."], Response.redirect "/", db⟩) ∧
    (∀ w, authenticate db.users u.username form.password = some w →
      (profile true form (some u) db).response =
        Response.redirect ("/users/" ++ toString u.id) ∧
      (profile true form (some u) db).store.messages = db.messages ∧
      (profile true form (some u) db).store.follows = db.follows ∧
      (profile true form (some u) db).store.likes = db.likes ∧
      (∀ x ∈ db.users, x.id ≠ u.id →
        x ∈ (profile true form (some u) db).store.users) ∧
      (∀ x ∈ (profile true form (some u) db).store.users, x.id ≠ u.id →
        x ∈ db.users) ∧
      (∀ x ∈ (profile true form (some u) db).store.users, x.id = u.id →
        x.password = u.password ∧ x.location = u.location ∧
        x.username = form.username ∧ x.email = form.email ∧
        x.bio = some form.bio)) := by
  constructor
  · intro h
    simp [profile, h]
  · intro w hw
    have hres : profile true form (some u) db =
        ⟨[], Response.redirect ("/users/" ++ toString u.id),
          { db with
              users := db.users.map
                (fun x => if x.id == u.id then applyEdit form u else x) }⟩ := by
      simp [profile, hw]
    rw [hres]
    refine ⟨rfl, rfl, rfl, rfl, ?_, ?_, ?_⟩
    · intro x hx hne
      exact List.mem_map.mpr ⟨x, hx, by simp [hne]⟩
    · intro x hx hne
      obtain ⟨y, hy, hyx⟩ := List.mem_map.mp hx
      by_cases hid : y.id = u.id
      · exfalso
        apply hne
        rw [← hyx]
        simp [hid, applyEdit]
      · rw [← hyx]
        simpa [hid] using hy
    · intro x hx hid
      obtain ⟨y, hy, hyx⟩ := List.mem_map.mp hx
      by_cases hyid : y.id = u.id
      · rw [← hyx]
        simp [hyid, applyEdit]
      · have hb : (y.id == u.id) = false := by simp [hyid]
        have hyx2 : y = x := by
          simp only [hb, Bool.false_eq_true, if_false] at hyx
          exact hyx
        exact absurd (by rw [hyx2]; exact hid) hyid

/-- Witness for C10 at concrete inputs: user 1 edits their profile with
the correct password; the resulting row keeps the old password hash. -/
theorem profile_frame_witness :
    ∀ x ∈ (profile true
        ⟨"newname", "new@mail.com", "", "", "hello", "FeL7f23#1"⟩
        (some sampleUser1) sampleStore).store.users,
      x.id = sampleUser1.id →
      x.password = sampleUser1.password ∧
      x.location = sampleUser1.location ∧
      x.username = "newname" ∧ x.email = "new@mail.com" ∧
      x.bio = some "hello" :=
  ((profile_frame sampleStore sampleUser1
      ⟨"newname", "new@mail.com", "", "", "hello", "FeL7f23#1"⟩).2
    sampleUser1 (by decide)).2.2.2.2.2.2

end Warbler
